import Mathlib

/-!
Verification of the convex-svelte reactive hooks (`useQuery`, `usePaginatedQuery`)
from `src/lib/client.svelte.ts`, as a shallow embedding in Lean 4.

External collaborators (the Convex client, the Svelte reactivity runtime, the
`convex/values` serialization) are modelled as explicit inputs or as small
concrete stand-ins; the hook logic itself — state reconciliation, staleness
policy, cursor-keyed page accumulation, status derivation — is translated
statement by statement from the TypeScript source.
-/

mutual
/-- A Convex `Value` (from `convex/values`): the JSON-like values that query
arguments and results range over. Numbers are modelled as integers. -/
inductive Value where
  | null
  | bool (b : Bool)
  | num (n : Int)
  | str (s : String)
  | arr (elems : ValueList)
  | obj (fields : ValueFields)
deriving Repr, DecidableEq

/-- The elements of a `Value` array. -/
inductive ValueList where
  | nil
  | cons (hd : Value) (tl : ValueList)
deriving Repr, DecidableEq

/-- The fields of a `Value` object, in insertion order. -/
inductive ValueFields where
  | nil
  | cons (key : String) (val : Value) (tl : ValueFields)
deriving Repr, DecidableEq
end

/-- JavaScript truthiness of a `Value`: `null`, `false`, `0` and `""` are
falsy; every array and object is truthy. -/
def truthyValue : Value → Bool
  | .null => false
  | .bool b => b
  | .num n => n != 0
  | .str s => s != ""
  | .arr _ => true
  | .obj _ => true

/-- A JavaScript `Error` object, as forwarded by the Convex client. -/
structure JsError where
  message : String
deriving Repr, DecidableEq

mutual
/-- Serialization of a `Value`, modelling `JSON.stringify(convexToJson(v))`
as used by `useQuery` for the query-key comparison. -/
def Value.encode : Value → String
  | .null => "null"
  | .bool true => "true"
  | .bool false => "false"
  | .num n => toString n
  | .str s => "\"" ++ s ++ "\""
  | .arr xs => "[" ++ ValueList.encodeElems xs ++ "]"
  | .obj fs => "\x7b" ++ ValueFields.encodeFields fs ++ "\x7d"

/-- Comma-separated serialization of array elements. -/
def ValueList.encodeElems : ValueList → String
  | .nil => ""
  | .cons hd .nil => Value.encode hd
  | .cons hd tl => Value.encode hd ++ "," ++ ValueList.encodeElems tl

/-- Comma-separated serialization of object fields. -/
def ValueFields.encodeFields : ValueFields → String
  | .nil => ""
  | .cons k v .nil => "\"" ++ k ++ "\":" ++ Value.encode v
  | .cons k v tl => "\"" ++ k ++ "\":" ++ Value.encode v ++ "," ++ ValueFields.encodeFields tl
end

/-- Query argument objects: a `Record<string, Value>`, in insertion order. -/
abbrev Args := List (String × Value)

/-- `JSON.stringify(convexToJson(args))` applied to an argument object. -/
def encodeArgs (a : Args) : String :=
  "\x7b" ++ String.intercalate "," (a.map (fun kv => "\"" ++ kv.1 ++ "\":" ++ Value.encode kv.2)) ++ "\x7d"

/-- Arguments as passed to a hook: a plain object or a closure returning one. -/
abbrev ArgsArg := Args ⊕ (Unit → Args)

/-- `parseArgs` (client.svelte.ts:213-220): unwrap a closure and snapshot.
`$state.snapshot` deep-clones, which is the identity on our value model. -/
def parseArgs : ArgsArg → Args
  | .inl a => a
  | .inr f => f ()

namespace UseQuery

/-- The result slot of `useQuery`'s state: a server value or an `Error`. -/
inductive QResult where
  | val (v : Value)
  | err (e : JsError)
deriving Repr, DecidableEq

/-- JavaScript truthiness of a possibly-undefined result: `undefined` is
falsy, an `Error` object is truthy, a value is truthy per `truthyValue`. -/
def truthyOptResult : Option QResult → Bool
  | none => false
  | some (.err _) => true
  | some (.val v) => truthyValue v

/-- JavaScript truthiness of a possibly-undefined value. -/
def truthyOptValue : Option Value → Bool
  | none => false
  | some v => truthyValue v

/-- The `enabled` option: a boolean or a closure returning one. -/
inductive EnabledOption where
  | bool (b : Bool)
  | closure (f : Unit → Bool)

/-- `UseQueryOptions` (client.svelte.ts:43-50); `none` marks an absent field. -/
structure UseQueryOptions where
  initialData : Option Value := none
  keepPreviousData : Option Bool := none
  enabled : Option EnabledOption := none

/-- Options as passed to the hook: a plain object or a closure returning one. -/
abbrev OptionsArg := UseQueryOptions ⊕ (Unit → UseQueryOptions)

/-- The result of `parseOptions`: `enabled` resolved to a boolean. -/
structure ResolvedOptions where
  initialData : Option Value
  keepPreviousData : Option Bool
  enabled : Bool

/-- `parseOptions` (client.svelte.ts:223-243): unwrap a closure, resolve
`enabled` (calling it when it is a function, defaulting to `true` when
absent) and snapshot the cleaned options. -/
def parseOptions (options : OptionsArg) : ResolvedOptions :=
  let o := match options with
    | .inl x => x
    | .inr f => f ()
  let resolvedEnabled := match o.enabled with
    | none => true
    | some (.bool b) => b
    | some (.closure f) => f ()
  { initialData := o.initialData
  , keepPreviousData := o.keepPreviousData
  , enabled := resolvedEnabled }

/-- The mutable state of one `useQuery` call (client.svelte.ts:76-89). -/
structure QueryState where
  result : Option QResult
  lastResult : Option QResult
  argsForLastResult : Option Args
  haveArgsEverChanged : Bool
deriving Repr, DecidableEq

/-- The initial state (client.svelte.ts:84-89): `result` starts as
`initialData` (when given), everything else empty. -/
def initialState (options : OptionsArg) : QueryState :=
  { result := ((parseOptions options).initialData).map QResult.val
  , lastResult := none
  , argsForLastResult := none
  , haveArgsEverChanged := false }

/-- A subscription handed to `client.onUpdate` by `useQuery`'s effect. -/
structure QuerySubscription where
  args : Args
deriving Repr, DecidableEq

/-- The subscription effect (client.svelte.ts:93-122): subscribe only if
`opts.enabled`; when disabled, no client subscription is created. -/
def queryEffect (args : ArgsArg) (options : OptionsArg) : Option QuerySubscription :=
  let argsObject := parseArgs args
  let opts := parseOptions options
  if opts.enabled then some { args := argsObject } else none

/-- The `onUpdate` data callback (client.svelte.ts:102-108): store a deep
copy of the server data as both `result` and `lastResult`, and remember the
args it was received for. -/
def onQueryData (argsObject : Args) (dataFromServer : Value) (st : QueryState) : QueryState :=
  { st with
    result := some (.val dataFromServer),
    argsForLastResult := some argsObject,
    lastResult := some (.val dataFromServer) }

/-- The `onUpdate` error callback (client.svelte.ts:109-115): store the error
as `result` and a copy of it as `lastResult`. -/
def onQueryError (argsObject : Args) (e : JsError) (st : QueryState) : QueryState :=
  { st with
    result := some (.err e),
    argsForLastResult := some argsObject,
    lastResult := some (.err e) }

/-- `sameArgsAsLastResult` (client.svelte.ts:125-129): the current args and
the args of the last received result serialize to the same JSON string
(`undefined` args for the last result compare falsy). -/
def sameArgsAsLastResult (st : QueryState) (args : ArgsArg) : Bool :=
  match st.argsForLastResult with
  | none => false
  | some prev => encodeArgs prev == encodeArgs (parseArgs args)

/-- `staleAllowed` (client.svelte.ts:130): `keepPreviousData` is set and
`state.lastResult` is truthy in the JavaScript sense. -/
def staleAllowed (options : OptionsArg) (st : QueryState) : Bool :=
  (parseOptions options).keepPreviousData.getD false && truthyOptResult st.lastResult

/-- `syncResult` (client.svelte.ts:151-172). `localResult` stands for
`client.disabled ? undefined : client.client.localQueryResult(...)` with a
thrown `Error` caught and used as the value — an input from the external
client. When `initialData` is truthy and the args have never changed, the
stored `state.result` is returned instead. -/
def syncResult (options : OptionsArg) (st : QueryState) (localResult : Option QResult) :
    Option QResult :=
  if truthyOptValue (parseOptions options).initialData && !st.haveArgsEverChanged then
    st.result
  else
    localResult

/-- `result` (client.svelte.ts:174-176): the sync result when defined,
otherwise the last result when staleness is allowed, otherwise `undefined`. -/
def result (options : OptionsArg) (st : QueryState) (localResult : Option QResult) :
    Option QResult :=
  match syncResult options st localResult with
  | some r => some r
  | none => if staleAllowed options st then st.lastResult else none

/-- `isStale` (client.svelte.ts:177-179). -/
def isStale (options : OptionsArg) (st : QueryState) (localResult : Option QResult)
    (args : ArgsArg) : Bool :=
  (syncResult options st localResult).isNone && staleAllowed options st
    && !sameArgsAsLastResult st args && (result options st localResult).isSome

/-- `data` (client.svelte.ts:180-185): the current result unless it is an
`Error`, in which case `undefined`. -/
def data (options : OptionsArg) (st : QueryState) (localResult : Option QResult) :
    Option Value :=
  match result options st localResult with
  | some (.err _) => none
  | some (.val v) => some v
  | none => none

/-- `error` (client.svelte.ts:186-191): the current result when it is an
`Error`, otherwise `undefined`. -/
def error (options : OptionsArg) (st : QueryState) (localResult : Option QResult) :
    Option JsError :=
  match result options st localResult with
  | some (.err e) => some e
  | _ => none

/-- The `isLoading` getter (client.svelte.ts:198-202): `false` when the
query is disabled, otherwise `true` exactly when both `error` and `data`
are `undefined`. -/
def isLoading (options : OptionsArg) (st : QueryState) (localResult : Option QResult) :
    Bool :=
  if !(parseOptions options).enabled then false
  else (error options st localResult).isNone && (data options st localResult).isNone

end UseQuery

namespace UsePaginatedQuery

/-- A `PaginationResult` page as delivered by the backend: the items, the
exhaustion flag, and the opaque continue cursor. -/
structure PageResult where
  page : List Value
  isDone : Bool
  continueCursor : String
deriving Repr, DecidableEq

/-- One client subscription created by `client.onUpdate`: the page cursor it
was requested with, the requested page size, and the query args. The `id`
gives each created subscription (closure) its identity. -/
structure Subscription where
  id : Nat
  cursor : Option String
  numItems : Nat
  args : Args
deriving Repr, DecidableEq

/-- A string-keyed map with JavaScript `Record`/`Map` update semantics:
`set` overwrites an existing key in place, otherwise appends. -/
def setAssoc {α : Type} (m : List (String × α)) (k : String) (v : α) : List (String × α) :=
  if m.any (fun kv => kv.1 == k) then
    m.map (fun kv => if kv.1 == k then (k, v) else kv)
  else m ++ [(k, v)]

/-- Lookup in a string-keyed map; `none` models `undefined`. -/
def lookupAssoc {α : Type} (m : List (String × α)) (k : String) : Option α :=
  (m.find? (fun kv => kv.1 == k)).map (fun kv => kv.2)

/-- The state of one `usePaginatedQuery` call (client.svelte.ts:293-302),
together with the set of subscriptions currently active at the external
client (`clientActive`) and a counter handing out subscription identities. -/
structure PagState where
  nextCursor : Option String
  pages : List PageResult
  pagesLoading : List (String × Bool)
  isDone : Bool
  error : Option JsError
  subscriptions : List (String × Subscription)
  clientActive : List Subscription
  nextId : Nat
deriving Repr, DecidableEq

/-- `UsePaginatedQueryOptions` (client.svelte.ts:251-254). -/
structure UsePaginatedQueryOptions where
  initialNumItems : Option Nat := none
  initialData : Option PageResult := none
deriving Repr, DecidableEq

/-- `const { initialNumItems = 10, initialData } = options`
(client.svelte.ts:290): `initialNumItems` defaults to 10 when absent. -/
def resolveInitialNumItems (options : UsePaginatedQueryOptions) : Nat :=
  options.initialNumItems.getD 10

/-- The initial state (client.svelte.ts:293-302): seeded from `initialData`
when provided, otherwise empty with the initial page marked loading. -/
def initPagState (initialData : Option PageResult) : PagState :=
  { nextCursor := initialData.map (fun d => d.continueCursor)
  , pages := match initialData with | some d => [d] | none => []
  , pagesLoading := [("initial", initialData.isNone)]
  , isDone := match initialData with | some d => d.isDone | none => false
  , error := none
  , subscriptions := []
  , clientActive := []
  , nextId := 0 }

/-- JavaScript truthiness of `cursor : string | null`: `null` and the empty
string are falsy. -/
def truthyCursor : Option String → Bool
  | none => false
  | some c => c != ""

/-- `subscribeToPage` (client.svelte.ts:304-338): mark the page loading
(only when `cursor` is truthy), create a client subscription passing
`{ ...args, paginationOpts: { numItems: initialNumItems, cursor } }`, and
store its unsubscribe function under the page key, overwriting any previous
entry without calling it. -/
def subscribeToPage (initialNumItems : Nat) (cursor : Option String) (args : Args)
    (s : PagState) : PagState :=
  let pageKey := cursor.getD "initial"
  let s1 := if truthyCursor cursor then
      { s with pagesLoading := setAssoc s.pagesLoading pageKey true }
    else s
  let sub : Subscription :=
    { id := s1.nextId, cursor := cursor, numItems := initialNumItems, args := args }
  { s1 with
    clientActive := s1.clientActive ++ [sub],
    nextId := s1.nextId + 1,
    subscriptions := setAssoc s1.subscriptions pageKey sub }

/-- The `onUpdate` data callback of `subscribeToPage`
(client.svelte.ts:314-329): clear the page's loading flag; if a stored page
has the same `continueCursor`, replace it in place (lodash `isEqual` guards
the write, skipping it when the page is unchanged), otherwise append the new
page; then record `nextCursor` and `isDone` from the delivered page. The
`getD` default is unreachable since `findIdx?` returns an in-range index. -/
def onPageUpdate (pageKey : String) (dataFromServer : PageResult) (s : PagState) : PagState :=
  let pagesLoading := setAssoc s.pagesLoading pageKey false
  let pages :=
    match s.pages.findIdx? (fun page => page.continueCursor == dataFromServer.continueCursor) with
    | none => s.pages ++ [dataFromServer]
    | some pageIndex =>
      if s.pages.getD pageIndex dataFromServer == dataFromServer then s.pages
      else s.pages.set pageIndex dataFromServer
  { s with
    pagesLoading := pagesLoading,
    pages := pages,
    nextCursor := some dataFromServer.continueCursor,
    isDone := dataFromServer.isDone }

/-- The `onUpdate` error callback of `subscribeToPage`
(client.svelte.ts:330-333): store the error. -/
def onPageError (e : JsError) (s : PagState) : PagState :=
  { s with error := some e }

/-- `subscriptions.forEach(unsubscribe => unsubscribe()); subscriptions.clear()`
(client.svelte.ts:350-351 and 378-381): every subscription stored in the map
is cancelled at the client, and the map is emptied. -/
def unsubscribeAll (s : PagState) : PagState :=
  { s with
    clientActive := s.clientActive.filter
      (fun c => !(s.subscriptions.any (fun kv => kv.2.id == c.id))),
    subscriptions := [] }

/-- The args-watching effect body (client.svelte.ts:344-375): unsubscribe
everything, reset the accumulated state (using `initialData` only on the
first render), clear the error, and subscribe to the initial page (cursor
`null`) with the new args. Returns the new state and the new value of the
`isFirstRender` flag. -/
def argsEffect (isFirstRender : Bool) (initialNumItems : Nat) (initialData : Option PageResult)
    (argsObject : Args) (s : PagState) : PagState × Bool :=
  let s1 := unsubscribeAll s
  let s2 := match isFirstRender, initialData with
    | true, some d =>
      { s1 with
        nextCursor := some d.continueCursor,
        pages := [d],
        pagesLoading := [("initial", false)],
        isDone := d.isDone }
    | _, _ =>
      { s1 with
        nextCursor := none,
        pages := [],
        pagesLoading := [("initial", true)],
        isDone := false }
  let s3 := { s2 with error := none }
  (subscribeToPage initialNumItems none argsObject s3, false)

/-- The effect's cleanup on unmount (client.svelte.ts:378-381). -/
def unmountCleanup (s : PagState) : PagState :=
  unsubscribeAll s

/-- `loadMore` (client.svelte.ts:385-387): subscribe to the page at the
current `nextCursor`. The return type declares a `numItems` parameter
(client.svelte.ts:269), but the implementing arrow function binds no
parameter, so the argument is ignored and `initialNumItems` is used. -/
def loadMore (_numItems : Nat) (initialNumItems : Nat) (args : ArgsArg) (s : PagState) :
    PagState :=
  subscribeToPage initialNumItems s.nextCursor (parseArgs args) s

/-- `UsePaginationQueryStatus` (client.svelte.ts:259-264). -/
inductive UsePaginationQueryStatus where
  | LoadingFirstPage
  | CanLoadMore
  | LoadingMore
  | Exhausted
deriving Repr, DecidableEq

/-- `status` (client.svelte.ts:390-406): `LoadingFirstPage` while
`pagesLoading["initial"]` is truthy; otherwise `LoadingMore` when some page
is still loading; otherwise `Exhausted` when `isDone`; otherwise
`CanLoadMore`. An absent `"initial"` key reads as `undefined`, i.e. falsy. -/
def status (s : PagState) : UsePaginationQueryStatus :=
  if (lookupAssoc s.pagesLoading "initial").getD false then
    .LoadingFirstPage
  else if s.pagesLoading.any (fun kv => kv.2) then
    .LoadingMore
  else if s.isDone then
    .Exhausted
  else
    .CanLoadMore

/-- `results` (client.svelte.ts:409): the concatenation of all stored
pages' items, in page order. -/
def results (s : PagState) : List Value :=
  (s.pages.map (fun page => page.page)).flatten

end UsePaginatedQuery

section HelperLemmas

/-- `findIdx?` returns an in-range index whose element satisfies the
predicate. -/
theorem findIdx?_some_spec {α : Type} (p : α → Bool) :
    ∀ (l : List α) (i : Nat), List.findIdx? p l = some i →
      i < l.length ∧ ∃ a, l[i]? = some a ∧ p a = true := by
  intro l
  induction l with
  | nil => intro i h; simp [List.findIdx?_nil] at h
  | cons x xs ih =>
    intro i h
    rw [List.findIdx?_cons] at h
    by_cases hp : p x = true
    · rw [if_pos hp] at h
      cases h
      exact ⟨by simp, x, by simp, hp⟩
    · rw [if_neg hp, List.findIdx?_succ] at h
      cases hfx : List.findIdx? p xs with
      | none => rw [hfx] at h; simp at h
      | some j =>
        rw [hfx] at h
        simp at h
        subst h
        obtain ⟨h1, a, h2, h3⟩ := ih j hfx
        exact ⟨by simpa using h1, a, by simpa using h2, h3⟩

/-- Setting index `i` to the element already stored there leaves the list
unchanged. -/
theorem set_getElem?_self {α : Type} :
    ∀ (l : List α) (i : Nat) (a : α), l[i]? = some a → l.set i a = l
  | [], i, a, h => by simp at h
  | x :: xs, 0, a, h => by
    simp at h
    simp [List.set, h]
  | x :: xs, i + 1, a, h => by
    simp only [List.getElem?_cons_succ] at h
    simp [List.set, set_getElem?_self xs i a h]
end HelperLemmas

/-- Overwriting an existing key in place makes lookup return the new value. -/
theorem lookupAssoc_map_overwrite {α : Type} (k : String) (v : α) :
    ∀ (m : List (String × α)), m.any (fun kv => kv.1 == k) = true →
      UsePaginatedQuery.lookupAssoc (m.map (fun kv => if kv.1 == k then (k, v) else kv)) k
        = some v := by
  intro m
  induction m with
  | nil => intro h; simp at h
  | cons hd tl ih =>
    intro h
    by_cases hh : (hd.1 == k) = true
    · simp [UsePaginatedQuery.lookupAssoc, List.find?, hh]
    · simp only [List.any_cons, hh, Bool.false_or] at h
      simp only [List.map_cons, if_neg hh]
      simpa [UsePaginatedQuery.lookupAssoc, List.find?, hh] using ih h

/-- Appending a fresh key makes lookup return its value when no earlier
entry has that key. -/
theorem lookupAssoc_append_single {α : Type} (k : String) (v : α) :
    ∀ (m : List (String × α)), m.any (fun kv => kv.1 == k) = false →
      UsePaginatedQuery.lookupAssoc (m ++ [(k, v)]) k = some v := by
  intro m
  induction m with
  | nil => simp [UsePaginatedQuery.lookupAssoc, List.find?]
  | cons hd tl ih =>
    intro h
    simp only [List.any_cons, Bool.or_eq_false_iff] at h
    simpa [UsePaginatedQuery.lookupAssoc, List.find?, h.1] using ih h.2

/-- After `setAssoc m k v`, looking up `k` yields `v`. -/
theorem lookupAssoc_setAssoc_self {α : Type} (m : List (String × α)) (k : String) (v : α) :
    UsePaginatedQuery.lookupAssoc (UsePaginatedQuery.setAssoc m k v) k = some v := by
  by_cases h : m.any (fun kv => kv.1 == k) = true
  · rw [UsePaginatedQuery.setAssoc, if_pos h]
    exact lookupAssoc_map_overwrite k v m h
  · rw [UsePaginatedQuery.setAssoc, if_neg h]
    exact lookupAssoc_append_single k v m (Bool.eq_false_iff.mpr h)

/-- What `subscribeToPage` does to each state component: it appends exactly
one new client subscription (with the requested cursor, `initialNumItems`
and args), stores it in the map under the page key, bumps the id counter,
touches `pagesLoading` only when the cursor is truthy, and leaves the
accumulated pages, cursor, error and `isDone` alone. -/
theorem subscribeToPage_spec (initialNumItems : Nat) (cursor : Option String) (args : Args)
    (s : UsePaginatedQuery.PagState) :
    (UsePaginatedQuery.subscribeToPage initialNumItems cursor args s).clientActive
        = s.clientActive ++ [⟨s.nextId, cursor, initialNumItems, args⟩] ∧
    (UsePaginatedQuery.subscribeToPage initialNumItems cursor args s).subscriptions
        = UsePaginatedQuery.setAssoc s.subscriptions (cursor.getD "initial")
            ⟨s.nextId, cursor, initialNumItems, args⟩ ∧
    (UsePaginatedQuery.subscribeToPage initialNumItems cursor args s).nextId = s.nextId + 1 ∧
    (UsePaginatedQuery.subscribeToPage initialNumItems cursor args s).pages = s.pages ∧
    (UsePaginatedQuery.subscribeToPage initialNumItems cursor args s).nextCursor = s.nextCursor ∧
    (UsePaginatedQuery.subscribeToPage initialNumItems cursor args s).error = s.error ∧
    (UsePaginatedQuery.subscribeToPage initialNumItems cursor args s).isDone = s.isDone ∧
    (UsePaginatedQuery.truthyCursor cursor = false →
      (UsePaginatedQuery.subscribeToPage initialNumItems cursor args s).pagesLoading
        = s.pagesLoading) ∧
    (UsePaginatedQuery.truthyCursor cursor = true →
      (UsePaginatedQuery.subscribeToPage initialNumItems cursor args s).pagesLoading
        = UsePaginatedQuery.setAssoc s.pagesLoading (cursor.getD "initial") true) := by
  by_cases h : UsePaginatedQuery.truthyCursor cursor = true <;>
    simp [UsePaginatedQuery.subscribeToPage, h]

/-- The accumulated page list after a delivery, as a standalone equation. -/
theorem onPageUpdate_pages_eq (pageKey : String) (d : UsePaginatedQuery.PageResult)
    (s : UsePaginatedQuery.PagState) :
    (UsePaginatedQuery.onPageUpdate pageKey d s).pages =
      match s.pages.findIdx? (fun page => page.continueCursor == d.continueCursor) with
      | none => s.pages ++ [d]
      | some i => if s.pages.getD i d == d then s.pages else s.pages.set i d := rfl

/-- C1: `usePaginatedQuery` accumulates pages in an append/update list keyed
by `continueCursor`. For every delivered result: when a stored page has the
delivered `continueCursor`, the page list keeps its length and every other
position, and the matched position now holds the delivered page (i.e. the
list becomes `set i d`); when no stored page matches, the delivered page is
appended at the end. A match index exists exactly when some stored page
carries the delivered cursor, so an update for an already-loaded page never
appends and hence never duplicates that page's items in `results`. -/
theorem claim_C1 (pageKey : String) (d : UsePaginatedQuery.PageResult)
    (s : UsePaginatedQuery.PagState) :
    (∀ i, s.pages.findIdx? (fun page => page.continueCursor == d.continueCursor) = some i →
      (UsePaginatedQuery.onPageUpdate pageKey d s).pages = s.pages.set i d ∧
      (UsePaginatedQuery.onPageUpdate pageKey d s).pages.length = s.pages.length ∧
      (UsePaginatedQuery.onPageUpdate pageKey d s).pages[i]? = some d ∧
      (∀ j, j ≠ i → (UsePaginatedQuery.onPageUpdate pageKey d s).pages[j]? = s.pages[j]?)) ∧
    (s.pages.findIdx? (fun page => page.continueCursor == d.continueCursor) = none →
      (UsePaginatedQuery.onPageUpdate pageKey d s).pages = s.pages ++ [d]) ∧
    ((∃ p ∈ s.pages, p.continueCursor = d.continueCursor) →
      ∃ i, s.pages.findIdx? (fun page => page.continueCursor == d.continueCursor) = some i) ∧
    ((∀ p ∈ s.pages, p.continueCursor ≠ d.continueCursor) →
      s.pages.findIdx? (fun page => page.continueCursor == d.continueCursor) = none) := by
  refine ⟨?_, ?_, ?_, ?_⟩
  · intro i h
    obtain ⟨hlt, a, ha, hp⟩ := findIdx?_some_spec _ _ _ h
    have hset : (UsePaginatedQuery.onPageUpdate pageKey d s).pages = s.pages.set i d := by
      have hm : (UsePaginatedQuery.onPageUpdate pageKey d s).pages =
          if s.pages.getD i d == d then s.pages else s.pages.set i d := by
        rw [onPageUpdate_pages_eq, h]
      rw [hm]
      by_cases hbe : (s.pages.getD i d == d) = true
      · rw [if_pos hbe]
        have hgd : s.pages.getD i d = d := eq_of_beq hbe
        rw [List.getD_eq_getElem?_getD, ha] at hgd
        simp only [Option.getD_some] at hgd
        subst hgd
        exact (set_getElem?_self s.pages i a ha).symm
      · rw [if_neg hbe]
    refine ⟨hset, by rw [hset]; exact List.length_set _ _ _, ?_, ?_⟩
    · rw [hset]; exact List.getElem?_set_self hlt
    · intro j hj
      rw [hset]; exact List.getElem?_set_ne (fun he => hj he.symm)
  · intro h
    rw [onPageUpdate_pages_eq, h]
  · rintro ⟨p, hm, he⟩
    cases hfi : s.pages.findIdx? (fun page => page.continueCursor == d.continueCursor) with
    | none =>
      have := List.findIdx?_eq_none_iff.mp hfi p hm
      rw [he] at this
      simp at this
    | some i => exact ⟨i, rfl⟩
  · intro h
    refine List.findIdx?_eq_none_iff.mpr ?_
    intro x hx
    exact beq_eq_false_iff_ne.mpr (h x hx)

/-- Witness: an update delivered for the already-loaded page with cursor
`"c1"` replaces it in place, keeping the list at length one. -/
theorem claim_C1_witness :
    (UsePaginatedQuery.onPageUpdate "initial"
      { page := [Value.num 2], isDone := true, continueCursor := "c1" }
      { nextCursor := some "c1",
        pages := [{ page := [Value.num 1], isDone := false, continueCursor := "c1" }],
        pagesLoading := [("initial", false)], isDone := false, error := none,
        subscriptions := [], clientActive := [], nextId := 1 }).pages
      = [{ page := [Value.num 2], isDone := true, continueCursor := "c1" }] ∧
    (UsePaginatedQuery.onPageUpdate "initial"
      { page := [Value.num 2], isDone := true, continueCursor := "c1" }
      { nextCursor := some "c1",
        pages := [{ page := [Value.num 1], isDone := false, continueCursor := "c1" }],
        pagesLoading := [("initial", false)], isDone := false, error := none,
        subscriptions := [], clientActive := [], nextId := 1 }).pages.length = 1 := by
  obtain ⟨h1, -, -, -⟩ := claim_C1 "initial"
    { page := [Value.num 2], isDone := true, continueCursor := "c1" }
    { nextCursor := some "c1",
      pages := [{ page := [Value.num 1], isDone := false, continueCursor := "c1" }],
      pagesLoading := [("initial", false)], isDone := false, error := none,
      subscriptions := [], clientActive := [], nextId := 1 }
  obtain ⟨hs, hl, -, -⟩ := h1 0 (by decide)
  exact ⟨by simpa using hs, by simpa using hl⟩

/-- C5: the status of `usePaginatedQuery` is `LoadingFirstPage` exactly when
the initial page is still marked loading; otherwise `LoadingMore` exactly
when some page is still marked loading; otherwise `Exhausted` exactly when
`isDone` is set; otherwise `CanLoadMore` — and each delivery records the
delivered page's `isDone`, so `isDone` is the most recently delivered
page's exhaustion flag. -/
theorem claim_C5 (s : UsePaginatedQuery.PagState) :
    (UsePaginatedQuery.status s = .LoadingFirstPage ↔
      (UsePaginatedQuery.lookupAssoc s.pagesLoading "initial").getD false = true) ∧
    ((UsePaginatedQuery.lookupAssoc s.pagesLoading "initial").getD false = false →
      (UsePaginatedQuery.status s = .LoadingMore ↔
        s.pagesLoading.any (fun kv => kv.2) = true)) ∧
    ((UsePaginatedQuery.lookupAssoc s.pagesLoading "initial").getD false = false →
      s.pagesLoading.any (fun kv => kv.2) = false →
      (UsePaginatedQuery.status s = .Exhausted ↔ s.isDone = true)) ∧
    ((UsePaginatedQuery.lookupAssoc s.pagesLoading "initial").getD false = false →
      s.pagesLoading.any (fun kv => kv.2) = false → s.isDone = false →
      UsePaginatedQuery.status s = .CanLoadMore) ∧
    (∀ pageKey d, (UsePaginatedQuery.onPageUpdate pageKey d s).isDone = d.isDone) := by
  by_cases h1 : (UsePaginatedQuery.lookupAssoc s.pagesLoading "initial").getD false = true
  · refine ⟨by simp [UsePaginatedQuery.status, h1], ?_, ?_, ?_, fun pageKey d => rfl⟩ <;>
      (intro h; rw [h1] at h; exact absurd h (by simp))
  · have h1f : (UsePaginatedQuery.lookupAssoc s.pagesLoading "initial").getD false = false :=
      Bool.eq_false_iff.mpr h1
    by_cases h2 : s.pagesLoading.any (fun kv => kv.2) = true
    · refine ⟨by simp [UsePaginatedQuery.status, h1f, h2], ?_, ?_, ?_, fun pageKey d => rfl⟩
      · intro _; simp [UsePaginatedQuery.status, h1f, h2]
      · intro _ hany; rw [h2] at hany; exact absurd hany (by simp)
      · intro _ hany; rw [h2] at hany; exact absurd hany (by simp)
    · have h2f : s.pagesLoading.any (fun kv => kv.2) = false := Bool.eq_false_iff.mpr h2
      by_cases h3 : s.isDone = true
      · refine ⟨by simp [UsePaginatedQuery.status, h1f, h2f, h3], ?_, ?_, ?_,
          fun pageKey d => rfl⟩
        · intro _; simp [UsePaginatedQuery.status, h1f, h2f, h3]
        · intro _ _; simp [UsePaginatedQuery.status, h1f, h2f, h3]
        · intro _ _ hd; rw [h3] at hd; exact absurd hd (by simp)
      · have h3f : s.isDone = false := Bool.eq_false_iff.mpr h3
        refine ⟨by simp [UsePaginatedQuery.status, h1f, h2f, h3f], ?_, ?_, ?_,
          fun pageKey d => rfl⟩
        · intro _; simp [UsePaginatedQuery.status, h1f, h2f, h3f]
        · intro _ _; simp [UsePaginatedQuery.status, h1f, h2f, h3f]
        · intro _ _ _; simp [UsePaginatedQuery.status, h1f, h2f, h3f]

/-- Witness: with the initial page loading the status is `LoadingFirstPage`;
with nothing loading and `isDone` false it is `CanLoadMore`. -/
theorem claim_C5_witness :
    UsePaginatedQuery.status (UsePaginatedQuery.initPagState none)
      = .LoadingFirstPage ∧
    UsePaginatedQuery.status
      { nextCursor := some "c1",
        pages := [{ page := [], isDone := false, continueCursor := "c1" }],
        pagesLoading := [("initial", false)], isDone := false, error := none,
        subscriptions := [], clientActive := [], nextId := 1 }
      = .CanLoadMore := by
  constructor
  · exact (claim_C5 (UsePaginatedQuery.initPagState none)).1.mpr (by decide)
  · exact (claim_C5 _).2.2.2.1 (by decide) (by decide) (by decide)

/-- C6: on an args change after the first render, every subscription in the
map is cancelled at the client and the map is cleared (likewise on unmount);
the accumulated state is fully reset — pages emptied, `nextCursor` null,
error cleared, `isDone` false, the initial page marked loading — with
`initialData` ignored (the effect's outcome does not depend on it), and the
map afterwards holds exactly one fresh subscription to the first page
(cursor null, the new args, a newly allocated identity), which is active at
the client. -/
theorem claim_C6 (initialNumItems : Nat) (initialData : Option UsePaginatedQuery.PageResult)
    (argsObject : Args) (s : UsePaginatedQuery.PagState) :
    (∀ kv ∈ s.subscriptions, kv.2 ∉ (UsePaginatedQuery.unsubscribeAll s).clientActive) ∧
    (UsePaginatedQuery.unsubscribeAll s).subscriptions = [] ∧
    (∀ kv ∈ s.subscriptions, kv.2 ∉ (UsePaginatedQuery.unmountCleanup s).clientActive) ∧
    (UsePaginatedQuery.unmountCleanup s).subscriptions = [] ∧
    (UsePaginatedQuery.argsEffect false initialNumItems initialData argsObject s
      = UsePaginatedQuery.argsEffect false initialNumItems none argsObject s) ∧
    (UsePaginatedQuery.argsEffect false initialNumItems initialData argsObject s).1.pages
      = [] ∧
    (UsePaginatedQuery.argsEffect false initialNumItems initialData argsObject s).1.nextCursor
      = none ∧
    (UsePaginatedQuery.argsEffect false initialNumItems initialData argsObject s).1.error
      = none ∧
    (UsePaginatedQuery.argsEffect false initialNumItems initialData argsObject s).1.isDone
      = false ∧
    (UsePaginatedQuery.argsEffect false initialNumItems initialData argsObject s).1.pagesLoading
      = [("initial", true)] ∧
    (UsePaginatedQuery.argsEffect false initialNumItems initialData argsObject s).1.subscriptions
      = [("initial",
          { id := s.nextId, cursor := none, numItems := initialNumItems, args := argsObject })] ∧
    (UsePaginatedQuery.argsEffect false initialNumItems initialData argsObject s).1.clientActive
      = (UsePaginatedQuery.unsubscribeAll s).clientActive
          ++ [{ id := s.nextId, cursor := none, numItems := initialNumItems,
                args := argsObject }] := by
  have hnotin : ∀ kv ∈ s.subscriptions, kv.2 ∉ (UsePaginatedQuery.unsubscribeAll s).clientActive := by
    intro kv hkv hmem
    rw [UsePaginatedQuery.unsubscribeAll] at hmem
    simp only [List.mem_filter] at hmem
    have hany : (s.subscriptions.any (fun kv2 => kv2.2.id == kv.2.id)) = true :=
      List.any_eq_true.mpr ⟨kv, hkv, by simp⟩
    rw [hany] at hmem
    simpa using hmem.2
  refine ⟨hnotin, rfl, hnotin, rfl, by cases initialData <;> rfl, ?_, ?_, ?_, ?_, ?_, ?_, ?_⟩ <;>
    cases initialData <;>
      simp [UsePaginatedQuery.argsEffect, UsePaginatedQuery.subscribeToPage,
        UsePaginatedQuery.truthyCursor, UsePaginatedQuery.setAssoc,
        UsePaginatedQuery.unsubscribeAll]

/-- Witness: a state with one active page subscription; after the args
change both the old subscription is gone from the client and exactly the
fresh initial-page subscription remains. -/
theorem claim_C6_witness :
    ({ id := 0, cursor := none, numItems := 10, args := [] } : UsePaginatedQuery.Subscription)
      ∉ (UsePaginatedQuery.unsubscribeAll
        { nextCursor := some "c1",
          pages := [{ page := [], isDone := false, continueCursor := "c1" }],
          pagesLoading := [("initial", false)], isDone := false, error := none,
          subscriptions := [("initial", { id := 0, cursor := none, numItems := 10, args := [] })],
          clientActive := [{ id := 0, cursor := none, numItems := 10, args := [] }],
          nextId := 1 }).clientActive ∧
    (UsePaginatedQuery.argsEffect false 10 none [("a", Value.num 1)]
        { nextCursor := some "c1",
          pages := [{ page := [], isDone := false, continueCursor := "c1" }],
          pagesLoading := [("initial", false)], isDone := false, error := none,
          subscriptions := [("initial", { id := 0, cursor := none, numItems := 10, args := [] })],
          clientActive := [{ id := 0, cursor := none, numItems := 10, args := [] }],
          nextId := 1 }).1.subscriptions
      = [("initial", { id := 1, cursor := none, numItems := 10, args := [("a", Value.num 1)] })] := by
  have h := claim_C6 10 none [("a", Value.num 1)]
    { nextCursor := some "c1",
      pages := [{ page := [], isDone := false, continueCursor := "c1" }],
      pagesLoading := [("initial", false)], isDone := false, error := none,
      subscriptions := [("initial", { id := 0, cursor := none, numItems := 10, args := [] })],
      clientActive := [{ id := 0, cursor := none, numItems := 10, args := [] }],
      nextId := 1 }
  exact ⟨h.1 ("initial", { id := 0, cursor := none, numItems := 10, args := [] })
      (by simp), h.2.2.2.2.2.2.2.2.2.2.1⟩

/-- C7 (amended): every call to `loadMore` subscribes to the page identified
by the current `nextCursor` (storing the new subscription under that page
key), requesting `initialNumItems` items, which defaults to 10 when the
option is absent; `nextCursor` is always the `continueCursor` of the most
recently delivered page. The `numItems` argument `loadMore` is declared to
take is ignored: it does not determine the requested page size. -/
theorem claim_C7_amended (numItems initialNumItems : Nat) (args : ArgsArg)
    (s : UsePaginatedQuery.PagState) :
    (UsePaginatedQuery.loadMore numItems initialNumItems args s).clientActive
      = s.clientActive
        ++ [{ id := s.nextId, cursor := s.nextCursor, numItems := initialNumItems,
              args := parseArgs args }] ∧
    UsePaginatedQuery.lookupAssoc
        (UsePaginatedQuery.loadMore numItems initialNumItems args s).subscriptions
        (s.nextCursor.getD "initial")
      = some { id := s.nextId, cursor := s.nextCursor, numItems := initialNumItems,
               args := parseArgs args } ∧
    (∀ m, UsePaginatedQuery.loadMore numItems initialNumItems args s
      = UsePaginatedQuery.loadMore m initialNumItems args s) ∧
    (∀ d, UsePaginatedQuery.resolveInitialNumItems
      { initialNumItems := none, initialData := d } = 10) ∧
    (∀ pageKey d, (UsePaginatedQuery.onPageUpdate pageKey d s).nextCursor
      = some d.continueCursor) := by
  obtain ⟨hca, hsub, -⟩ :=
    subscribeToPage_spec initialNumItems s.nextCursor (parseArgs args) s
  refine ⟨hca, ?_, fun m => rfl, fun d => rfl, fun pageKey d => rfl⟩
  rw [UsePaginatedQuery.loadMore, hsub]
  exact lookupAssoc_setAssoc_self _ _ _

/-- Counterexample to C7 as stated: calling `loadMore 5` with default
options requests 10 items, not 5 — the declared `numItems` argument does not
determine the requested page size. -/
theorem claim_C7_counterexample :
    (UsePaginatedQuery.loadMore 5
        (UsePaginatedQuery.resolveInitialNumItems
          { initialNumItems := none, initialData := none })
        (Sum.inl []) (UsePaginatedQuery.initPagState none)).clientActive
      = [{ id := 0, cursor := none, numItems := 10, args := [] }] ∧
    (10 : Nat) ≠ 5 := by
  exact ⟨rfl, by decide⟩

/-- Witness for the amended C7: on a state whose `nextCursor` is `"c1"`,
`loadMore` stores a subscription for cursor `"c1"` requesting 10 items. -/
theorem claim_C7_witness :
    UsePaginatedQuery.lookupAssoc
        (UsePaginatedQuery.loadMore 3 10 (Sum.inl [])
          { nextCursor := some "c1",
            pages := [{ page := [], isDone := false, continueCursor := "c1" }],
            pagesLoading := [("initial", false)], isDone := false, error := none,
            subscriptions := [], clientActive := [], nextId := 1 }).subscriptions "c1"
      = some { id := 1, cursor := some "c1", numItems := 10, args := [] } := by
  exact (claim_C7_amended 3 10 (Sum.inl [])
    { nextCursor := some "c1",
      pages := [{ page := [], isDone := false, continueCursor := "c1" }],
      pagesLoading := [("initial", false)], isDone := false, error := none,
      subscriptions := [], clientActive := [], nextId := 1 }).2.1

/-- C10: `loadMore` is not guarded by status — for every state, including
one still loading the first page (`nextCursor` null) or exhausted, it
creates a new client subscription keyed by the current `nextCursor` (or
`"initial"` when null); it removes nothing from the client's active set, so
storing under a page key that already holds a subscription replaces the
stored unsubscribe function without invoking it (the old subscription stays
active at the client). -/
theorem claim_C10 (numItems initialNumItems : Nat) (args : ArgsArg)
    (s : UsePaginatedQuery.PagState) :
    (UsePaginatedQuery.loadMore numItems initialNumItems args s).clientActive
      = s.clientActive
        ++ [{ id := s.nextId, cursor := s.nextCursor, numItems := initialNumItems,
              args := parseArgs args }] ∧
    UsePaginatedQuery.lookupAssoc
        (UsePaginatedQuery.loadMore numItems initialNumItems args s).subscriptions
        (s.nextCursor.getD "initial")
      = some { id := s.nextId, cursor := s.nextCursor, numItems := initialNumItems,
               args := parseArgs args } ∧
    (∀ old, UsePaginatedQuery.lookupAssoc s.subscriptions (s.nextCursor.getD "initial")
        = some old → old ∈ s.clientActive →
      old ∈ (UsePaginatedQuery.loadMore numItems initialNumItems args s).clientActive) := by
  obtain ⟨hca, hsub, -⟩ :=
    subscribeToPage_spec initialNumItems s.nextCursor (parseArgs args) s
  refine ⟨hca, ?_, ?_⟩
  · rw [UsePaginatedQuery.loadMore, hsub]
    exact lookupAssoc_setAssoc_self _ _ _
  · intro old _ hmem
    rw [UsePaginatedQuery.loadMore, hca]
    exact List.mem_append_left _ hmem

/-- Witness for C10: in a `LoadingFirstPage` state (`nextCursor` null) that
already holds an `"initial"` subscription, `loadMore` stores a fresh
subscription under `"initial"` while the old one remains active at the
client. -/
theorem claim_C10_witness :
    UsePaginatedQuery.lookupAssoc
        (UsePaginatedQuery.loadMore 7 10 (Sum.inl [])
          { nextCursor := none, pages := [], pagesLoading := [("initial", true)],
            isDone := false, error := none,
            subscriptions := [("initial", { id := 0, cursor := none, numItems := 10, args := [] })],
            clientActive := [{ id := 0, cursor := none, numItems := 10, args := [] }],
            nextId := 1 }).subscriptions "initial"
      = some { id := 1, cursor := none, numItems := 10, args := [] } ∧
    ({ id := 0, cursor := none, numItems := 10, args := [] } : UsePaginatedQuery.Subscription)
      ∈ (UsePaginatedQuery.loadMore 7 10 (Sum.inl [])
          { nextCursor := none, pages := [], pagesLoading := [("initial", true)],
            isDone := false, error := none,
            subscriptions := [("initial", { id := 0, cursor := none, numItems := 10, args := [] })],
            clientActive := [{ id := 0, cursor := none, numItems := 10, args := [] }],
            nextId := 1 }).clientActive := by
  have h := claim_C10 7 10 (Sum.inl [])
    { nextCursor := none, pages := [], pagesLoading := [("initial", true)],
      isDone := false, error := none,
      subscriptions := [("initial", { id := 0, cursor := none, numItems := 10, args := [] })],
      clientActive := [{ id := 0, cursor := none, numItems := 10, args := [] }],
      nextId := 1 }
  exact ⟨h.2.1, h.2.2 { id := 0, cursor := none, numItems := 10, args := [] } rfl (by simp)⟩

/-- C3: when the current result is an `Error` reported by the external
client, `useQuery` forwards that error object unchanged — the `error` getter
returns it, `data` is `undefined` and `isLoading` is `false`; `error` only
ever returns the `Error` held in the current result; and whenever the
current result is not an `Error`, `error` is `undefined`. -/
theorem claim_C3 (options : UseQuery.OptionsArg) (st : UseQuery.QueryState)
    (localResult : Option UseQuery.QResult) :
    (∀ e, UseQuery.result options st localResult = some (.err e) →
      UseQuery.error options st localResult = some e ∧
      UseQuery.data options st localResult = none ∧
      UseQuery.isLoading options st localResult = false) ∧
    (∀ e, UseQuery.error options st localResult = some e →
      UseQuery.result options st localResult = some (.err e)) ∧
    ((∀ e, UseQuery.result options st localResult ≠ some (.err e)) →
      UseQuery.error options st localResult = none) := by
  refine ⟨?_, ?_, ?_⟩
  · intro e h
    refine ⟨by simp [UseQuery.error, h], by simp [UseQuery.data, h], ?_⟩
    simp [UseQuery.isLoading, UseQuery.error, UseQuery.data, h]
  · intro e h
    cases hr : UseQuery.result options st localResult with
    | none => simp [UseQuery.error, hr] at h
    | some r =>
      cases r with
      | val v => simp [UseQuery.error, hr] at h
      | err e2 =>
        simp [UseQuery.error, hr] at h
        rw [h]
  · intro hne
    cases hr : UseQuery.result options st localResult with
    | none => simp [UseQuery.error, hr]
    | some r =>
      cases r with
      | val v => simp [UseQuery.error, hr]
      | err e2 => exact absurd hr (hne e2)

/-- Witness: with the local query result an `Error`, the hook surfaces
exactly that error, no data, and is not loading. -/
theorem claim_C3_witness :
    UseQuery.error (Sum.inl {})
      { result := none, lastResult := none, argsForLastResult := none,
        haveArgsEverChanged := false }
      (some (.err { message := "boom" })) = some { message := "boom" } ∧
    UseQuery.data (Sum.inl {})
      { result := none, lastResult := none, argsForLastResult := none,
        haveArgsEverChanged := false }
      (some (.err { message := "boom" })) = none ∧
    UseQuery.isLoading (Sum.inl {})
      { result := none, lastResult := none, argsForLastResult := none,
        haveArgsEverChanged := false }
      (some (.err { message := "boom" })) = false := by
  exact (claim_C3 (Sum.inl {})
    { result := none, lastResult := none, argsForLastResult := none,
      haveArgsEverChanged := false }
    (some (.err { message := "boom" }))).1 { message := "boom" } rfl

/-- C8: in every state of the object returned by `useQuery`, `data` and
`error` are never both defined: `error` is defined with value `e` exactly
when the current result is the `Error` `e`, and `data` is defined with
value `v` exactly when the current result is the non-`Error` value `v`. -/
theorem claim_C8 (options : UseQuery.OptionsArg) (st : UseQuery.QueryState)
    (localResult : Option UseQuery.QResult) :
    (UseQuery.data options st localResult = none ∨
      UseQuery.error options st localResult = none) ∧
    (∀ e, UseQuery.error options st localResult = some e ↔
      UseQuery.result options st localResult = some (.err e)) ∧
    (∀ v, UseQuery.data options st localResult = some v ↔
      UseQuery.result options st localResult = some (.val v)) := by
  cases hr : UseQuery.result options st localResult with
  | none =>
    exact ⟨Or.inl (by simp [UseQuery.data, hr]),
      fun e => by simp [UseQuery.error, hr],
      fun v => by simp [UseQuery.data, hr]⟩
  | some r =>
    cases r with
    | val v0 =>
      exact ⟨Or.inr (by simp [UseQuery.error, hr]),
        fun e => by simp [UseQuery.error, hr],
        fun v => by simp [UseQuery.data, hr]⟩
    | err e0 =>
      exact ⟨Or.inl (by simp [UseQuery.data, hr]),
        fun e => by simp [UseQuery.error, hr],
        fun v => by simp [UseQuery.data, hr]⟩

/-- C4: the query key `useQuery` derives from argument objects is stable:
derivation is deterministic, and `sameArgsAsLastResult` holds exactly when
the serialized Convex-JSON encodings of the remembered args and the current
args are equal — structural equality of the encodings, not object identity,
decides key equality (args never compared when none were remembered). -/
theorem claim_C4 (st : UseQuery.QueryState) (args : ArgsArg) :
    (∀ a : Args, encodeArgs a = encodeArgs a) ∧
    (∀ prev, st.argsForLastResult = some prev →
      (UseQuery.sameArgsAsLastResult st args = true ↔
        encodeArgs prev = encodeArgs (parseArgs args))) ∧
    (st.argsForLastResult = none → UseQuery.sameArgsAsLastResult st args = false) := by
  refine ⟨fun a => rfl, ?_, ?_⟩
  · intro prev h
    simp [UseQuery.sameArgsAsLastResult, h]
  · intro h
    simp [UseQuery.sameArgsAsLastResult, h]

/-- Witness: two argument objects with equal encodings are treated as the
same query key. -/
theorem claim_C4_witness :
    UseQuery.sameArgsAsLastResult
      { result := none, lastResult := none,
        argsForLastResult := some [("x", Value.num 1)], haveArgsEverChanged := false }
      (Sum.inl [("x", Value.num 1)]) = true := by
  exact ((claim_C4
    { result := none, lastResult := none,
      argsForLastResult := some [("x", Value.num 1)], haveArgsEverChanged := false }
    (Sum.inl [("x", Value.num 1)])).2.1 [("x", Value.num 1)] rfl).mpr rfl

/-- C9: when `enabled` resolves to `false` (given as `false` or as a closure
returning `false`), `useQuery` creates no client subscription and
`isLoading` is `false` in every state; `enabled` defaults to `true` when
absent; and in the fresh state without `initialData`, `data` and `error`
are both `undefined`. -/
theorem claim_C9 (args : ArgsArg) (options : UseQuery.OptionsArg)
    (h : (UseQuery.parseOptions options).enabled = false) :
    UseQuery.queryEffect args options = none ∧
    (∀ st localResult, UseQuery.isLoading options st localResult = false) ∧
    (∀ o2 : UseQuery.UseQueryOptions, o2.enabled = none →
      (UseQuery.parseOptions (Sum.inl o2)).enabled = true) ∧
    (∀ o2 : UseQuery.UseQueryOptions, o2.enabled = some (.bool false) →
      (UseQuery.parseOptions (Sum.inl o2)).enabled = false) ∧
    (∀ (o2 : UseQuery.UseQueryOptions) (f : Unit → Bool), o2.enabled = some (.closure f) →
      f () = false → (UseQuery.parseOptions (Sum.inl o2)).enabled = false) ∧
    ((UseQuery.parseOptions options).initialData = none →
      UseQuery.data options (UseQuery.initialState options) none = none ∧
      UseQuery.error options (UseQuery.initialState options) none = none) := by
  refine ⟨?_, ?_, ?_, ?_, ?_, ?_⟩
  · simp [UseQuery.queryEffect, h]
  · intro st localResult
    simp [UseQuery.isLoading, h]
  · intro o2 he; simp [UseQuery.parseOptions, he]
  · intro o2 he; simp [UseQuery.parseOptions, he]
  · intro o2 f he hf; simp [UseQuery.parseOptions, he, hf]
  · intro hinit
    have hres : UseQuery.result options (UseQuery.initialState options) none = none := by
      simp [UseQuery.result, UseQuery.syncResult, UseQuery.staleAllowed,
        UseQuery.initialState, UseQuery.truthyOptValue, UseQuery.truthyOptResult, hinit]
    exact ⟨by simp [UseQuery.data, hres], by simp [UseQuery.error, hres]⟩

/-- Witness: with `enabled: false`, no subscription is created and
`isLoading` is `false` while `data` and `error` are both `undefined`. -/
theorem claim_C9_witness :
    UseQuery.queryEffect (Sum.inl []) (Sum.inl { enabled := some (.bool false) }) = none ∧
    UseQuery.isLoading (Sum.inl { enabled := some (.bool false) })
      (UseQuery.initialState (Sum.inl { enabled := some (.bool false) })) none = false ∧
    UseQuery.data (Sum.inl { enabled := some (.bool false) })
      (UseQuery.initialState (Sum.inl { enabled := some (.bool false) })) none = none ∧
    UseQuery.error (Sum.inl { enabled := some (.bool false) })
      (UseQuery.initialState (Sum.inl { enabled := some (.bool false) })) none = none := by
  have h := claim_C9 (Sum.inl []) (Sum.inl { enabled := some (.bool false) }) rfl
  exact ⟨h.1, h.2.1 _ none, (h.2.2.2.2.2 rfl).1, (h.2.2.2.2.2 rfl).2⟩

/-- Counterexample to C2 as stated: with `keepPreviousData` set, a previous
result `null` received (for different args) and no result yet for the
current args, the claim says the hook returns the previous result with
`isLoading` false — but `staleAllowed` tests JavaScript truthiness of
`state.lastResult`, and `null` is falsy, so the hook returns no data and
reports `isLoading` true. -/
theorem claim_C2_counterexample :
    (UseQuery.parseOptions (Sum.inl { keepPreviousData := some true })).keepPreviousData
      = some true ∧
    ({ result := none, lastResult := some (.val .null),
       argsForLastResult := some [("k", Value.num 1)],
       haveArgsEverChanged := true } : UseQuery.QueryState).lastResult
      = some (.val .null) ∧
    UseQuery.syncResult (Sum.inl { keepPreviousData := some true })
      { result := none, lastResult := some (.val .null),
        argsForLastResult := some [("k", Value.num 1)], haveArgsEverChanged := true }
      none = none ∧
    UseQuery.data (Sum.inl { keepPreviousData := some true })
      { result := none, lastResult := some (.val .null),
        argsForLastResult := some [("k", Value.num 1)], haveArgsEverChanged := true }
      none = none ∧
    UseQuery.isLoading (Sum.inl { keepPreviousData := some true })
      { result := none, lastResult := some (.val .null),
        argsForLastResult := some [("k", Value.num 1)], haveArgsEverChanged := true }
      none = true := by
  exact ⟨rfl, rfl, rfl, rfl, rfl⟩

/-- C2 (amended): with `keepPreviousData` set, whenever no result is yet
available for the current args but some previous non-`Error` result that is
truthy in the JavaScript sense (not `null`, `false`, `0` or `""`) was
received, the hook returns that previous result — `data` is the previous
result and `isLoading` is false — and `isStale` is true exactly when
additionally the current args differ from the args of that previous result
under Convex-JSON serialization and the returned result is defined. -/
theorem claim_C2_amended (options : UseQuery.OptionsArg) (st : UseQuery.QueryState)
    (localResult : Option UseQuery.QResult) (args : ArgsArg) (prev : Value)
    (hkpd : (UseQuery.parseOptions options).keepPreviousData = some true)
    (hsync : UseQuery.syncResult options st localResult = none)
    (hlast : st.lastResult = some (.val prev))
    (htruthy : truthyValue prev = true) :
    UseQuery.result options st localResult = some (.val prev) ∧
    UseQuery.data options st localResult = some prev ∧
    UseQuery.isLoading options st localResult = false ∧
    (UseQuery.isStale options st localResult args = true ↔
      (UseQuery.sameArgsAsLastResult st args = false ∧
        UseQuery.result options st localResult ≠ none)) := by
  have hsa : UseQuery.staleAllowed options st = true := by
    rw [UseQuery.staleAllowed, hkpd, hlast]
    simp [UseQuery.truthyOptResult, htruthy]
  have hres : UseQuery.result options st localResult = some (.val prev) := by
    simp [UseQuery.result, hsync, hsa, hlast]
  refine ⟨hres, by simp [UseQuery.data, hres], ?_, ?_⟩
  · simp [UseQuery.isLoading, UseQuery.error, UseQuery.data, hres]
  · rw [UseQuery.isStale, hsync, hsa, hres]
    simp

/-- Witness for the amended C2: a truthy previous result (`"hello"`)
received for args `{k: 1}` is returned while args are `{k: 2}`, with
`isLoading` false and `isStale` true. -/
theorem claim_C2_witness :
    UseQuery.data (Sum.inl { keepPreviousData := some true })
      { result := none, lastResult := some (.val (.str "hello")),
        argsForLastResult := some [("k", Value.num 1)], haveArgsEverChanged := true }
      none = some (.str "hello") ∧
    UseQuery.isLoading (Sum.inl { keepPreviousData := some true })
      { result := none, lastResult := some (.val (.str "hello")),
        argsForLastResult := some [("k", Value.num 1)], haveArgsEverChanged := true }
      none = false ∧
    UseQuery.isStale (Sum.inl { keepPreviousData := some true })
      { result := none, lastResult := some (.val (.str "hello")),
        argsForLastResult := some [("k", Value.num 1)], haveArgsEverChanged := true }
      none (Sum.inl [("k", Value.num 2)]) = true := by
  have h := claim_C2_amended (Sum.inl { keepPreviousData := some true })
    { result := none, lastResult := some (.val (.str "hello")),
      argsForLastResult := some [("k", Value.num 1)], haveArgsEverChanged := true }
    none (Sum.inl [("k", Value.num 2)]) (.str "hello") rfl rfl rfl rfl
  refine ⟨h.2.1, h.2.2.1, h.2.2.2.mpr ⟨?_, ?_⟩⟩
  · decide
  · rw [h.1]
    simp
